import Mathlib

/-!
Verification of the client-side sync session core (realm-core): a shallow
embedding of `src/realm/sync/noinst/client_impl_base.cpp` and
`src/realm/object-store/sync/sync_session.cpp`, with theorems settling the
spec claims about the reconnect policy, the connection keepalive, the
session protocol handlers, the sync-session facade and the progress
notifier.
-/

namespace RealmSync

/-- Reasons for termination of a connection
(`ClientImpl::ConnectionTerminationReason`, listed in spec section 4.1). -/
inductive ConnectionTerminationReason
  | closed_voluntarily
  | server_said_try_again_later
  | server_said_do_not_reconnect
  | connect_operation_failed
  | sync_connect_timeout
  | read_or_write_error
  | pong_timeout
  | websocket_protocol_violation
  | ssl_certificate_rejected
  | http_response_says_nonfatal_error
  | http_response_says_fatal_error
  | sync_protocol_violation
  | bad_headers_in_http_response
  deriving DecidableEq, Repr

/-- Reconnect mode of the client (`ReconnectMode`): `normal` in production,
`testing` disables the exponential backoff scheme. -/
inductive ReconnectMode
  | normal
  | testing
  deriving DecidableEq, Repr

/-- A reconnect delay in milliseconds; `infinite` stands for
`std::chrono::milliseconds::max()` (never reconnect). -/
inductive Delay
  | finite (ms : Nat)
  | infinite
  deriving DecidableEq, Repr

/-- Modelled from the spec: the capped exponential backoff state
(`ErrorBackoffState` lives in a header that is not among the sources).
Per spec section 4.1 it computes delays from `resumption_delay_interval`,
`resumption_delay_backoff_multiplier` and `max_resumption_delay_interval`
(jitter is randomized and omitted here), and it records the termination
reason that triggered the backoff. -/
structure BackoffState where
  triggering_error : Option ConnectionTerminationReason
  cur_delay : Nat
  resumption_delay_interval : Nat
  max_resumption_delay_interval : Nat
  backoff_multiplier : Nat
  deriving DecidableEq, Repr

namespace BackoffState

/-- Modelled from the spec: resetting the backoff clears the triggering
error and restores the base delay. -/
def reset (s : BackoffState) : BackoffState :=
  { s with triggering_error := none, cur_delay := s.resumption_delay_interval }

/-- Modelled from the spec: recording a new termination reason; a repeat of
the same reason keeps the grown delay, a different reason restarts the
schedule from the base delay. -/
def update (s : BackoffState) (reason : ConnectionTerminationReason) : BackoffState :=
  if s.triggering_error = some reason then s
  else { s with triggering_error := some reason, cur_delay := s.resumption_delay_interval }

/-- Modelled from the spec: consuming one delay from the exponential
schedule returns the current delay and multiplies it, capped at the
maximum. -/
def delay_interval (s : BackoffState) : Nat × BackoffState :=
  (s.cur_delay,
    { s with cur_delay := min (s.cur_delay * s.backoff_multiplier) s.max_resumption_delay_interval })

end BackoffState

/-- `ClientImpl::ReconnectInfo`: the scheduled-reset flag plus the backoff
state (client_impl_base.cpp lines 46-83). -/
structure ReconnectInfo where
  scheduled_reset : Bool
  backoff_state : BackoffState
  reconnect_mode : ReconnectMode
  deriving DecidableEq, Repr

namespace ReconnectInfo

/-- `ClientImpl::ReconnectInfo::reset`. -/
def reset (ri : ReconnectInfo) : ReconnectInfo :=
  { ri with backoff_state := ri.backoff_state.reset, scheduled_reset := false }

/-- `ClientImpl::ReconnectInfo::update`. -/
def update (ri : ReconnectInfo) (reason : ConnectionTerminationReason) : ReconnectInfo :=
  { ri with backoff_state := ri.backoff_state.update reason }

/-- `ClientImpl::ReconnectInfo::delay_interval`: a pending scheduled reset
is consumed first; with no triggering error or a voluntary close the delay
is zero, `server_said_do_not_reconnect` gives an infinite delay, and any
other reason falls through to the backoff schedule (infinite in `testing`
mode). -/
def delay_interval (ri : ReconnectInfo) : Delay × ReconnectInfo :=
  let ri := if ri.scheduled_reset then ri.reset else ri
  match ri.backoff_state.triggering_error with
  | none => (Delay.finite 0, ri)
  | some ConnectionTerminationReason.closed_voluntarily => (Delay.finite 0, ri)
  | some ConnectionTerminationReason.server_said_do_not_reconnect => (Delay.infinite, ri)
  | some _ =>
      if ri.reconnect_mode = ReconnectMode.testing then (Delay.infinite, ri)
      else
        let p := ri.backoff_state.delay_interval
        (Delay.finite p.1, { ri with backoff_state := p.2 })

end ReconnectInfo

/-- Connection state (`ConnectionState`): connecting, connected,
disconnected. -/
inductive ConnState
  | connecting
  | connected
  | disconnected
  deriving DecidableEq, Repr

/-- Client-side protocol error codes (`ClientError`) relevant to the
modelled handlers. -/
inductive ClientError
  | bad_message_order
  | bad_timestamp
  | bad_server_version
  | bad_client_version
  | bad_origin_file_ident
  | bad_client_file_ident
  | bad_client_file_ident_salt
  | bad_progress
  | bad_request_ident
  deriving DecidableEq, Repr

/-- The keepalive- and reconnect-relevant portion of `ClientImpl::Connection`:
the flag set manipulated by `cancel_reconnect_delay`, `send_ping`,
`receive_pong`, `disconnect` and `initiate_reconnect_wait`. -/
structure Connection where
  state : ConnState
  force_closed : Bool
  reconnect_delay_in_progress : Bool
  nonzero_reconnect_delay : Bool
  reconnect_info : ReconnectInfo
  ping_delay_in_progress : Bool
  waiting_for_pong : Bool
  send_ping : Bool
  minimize_next_ping_delay : Bool
  ping_after_scheduled_reset_of_reconnect_info : Bool
  ping_sent : Bool
  last_ping_sent_at : Int
  previous_ping_rtt : Int
  deriving DecidableEq, Repr

namespace Connection

/-- `Connection::initiate_reconnect_wait` (client_impl_base.cpp lines
612-649): when not force-closed, marks the reconnect wait in progress and
consumes one delay from the reconnect info; an infinite delay starts no
timer, a zero delay clears `m_nonzero_reconnect_delay`.  The computed delay
is returned for observation (`none` when the wait was skipped). -/
def initiate_reconnect_wait (c : Connection) : Connection × Option Delay :=
  if c.force_closed then (c, none)
  else
    let c := { c with reconnect_delay_in_progress := true }
    let p := c.reconnect_info.delay_interval
    let c := { c with reconnect_info := p.2 }
    match p.1 with
    | Delay.infinite => ({ c with nonzero_reconnect_delay := true }, some Delay.infinite)
    | Delay.finite ms =>
        ({ c with nonzero_reconnect_delay := decide (ms ≠ 0) }, some (Delay.finite ms))

/-- Flag effect of `Connection::initiate_ping_delay` (lines 845-889): the
minimize flag is consumed and the heartbeat timer is armed (the randomized
delay length itself is not tracked by this model). -/
def initiate_ping_delay (c : Connection) : Connection :=
  { c with minimize_next_ping_delay := false, ping_delay_in_progress := true }

/-- `Connection::schedule_urgent_ping` (lines 828-842): if a ping delay is
pending it is restarted minimized; otherwise, when no PING is already due,
the next ping delay is marked to be minimized. -/
def schedule_urgent_ping (c : Connection) : Connection :=
  if c.ping_delay_in_progress then
    initiate_ping_delay
      { c with ping_delay_in_progress := false, minimize_next_ping_delay := true }
  else if !c.send_ping then { c with minimize_next_ping_delay := true }
  else c

/-- `Connection::cancel_reconnect_delay` (lines 357-395): during a
reconnect wait the backoff state is reset and a new reconnect wait is
initiated immediately; otherwise, while not disconnected, a scheduled
reset is recorded and an urgent PING is scheduled; when disconnected with
no wait in progress nothing happens. -/
def cancel_reconnect_delay (c : Connection) : Connection × Option Delay :=
  if c.reconnect_delay_in_progress then
    let c := { c with reconnect_delay_in_progress := false,
                      reconnect_info := c.reconnect_info.reset }
    c.initiate_reconnect_wait
  else if c.state ≠ ConnState.disconnected then
    let c := { c with
      reconnect_info := { c.reconnect_info with scheduled_reset := true },
      ping_after_scheduled_reset_of_reconnect_info := false }
    (c.schedule_urgent_ping, none)
  else (c, none)

/-- `Connection::handle_ping_delay` followed by
`Connection::initiate_pong_timeout` (lines 892-923): the heartbeat timer
fired, so a PING becomes due and the pong-timeout watchdog is armed. -/
def ping_timer_fired (c : Connection) : Connection :=
  { c with ping_delay_in_progress := false, send_ping := true, waiting_for_pong := true }

/-- `Connection::send_ping` (lines 1000-1019): consumes the `m_send_ping`
flag, records that this PING follows a scheduled reset when one is
pending, and stamps the PING with the current time. -/
def do_send_ping (c : Connection) (now : Int) : Connection :=
  let c := { c with send_ping := false }
  let c :=
    if c.reconnect_info.scheduled_reset then
      { c with ping_after_scheduled_reset_of_reconnect_info := true }
    else c
  { c with last_ping_sent_at := now, ping_sent := true }

/-- Outcome of `Connection::receive_pong`. -/
inductive PongOutcome
  | accepted (round_trip_time : Int)
  | closed (err : ClientError)
  deriving DecidableEq, Repr

/-- The pure part of `Connection::receive_pong` (lines 1192-1232): the
legality check, the timestamp check, the RTT computation and the flag
updates on acceptance (closing the connection on error is applied by the
caller in the trace semantics). -/
def receive_pong (c : Connection) (timestamp now : Int) : Connection × PongOutcome :=
  let legal_at_this_time := c.waiting_for_pong && !c.send_ping
  if !legal_at_this_time then (c, PongOutcome.closed ClientError.bad_message_order)
  else if timestamp ≠ c.last_ping_sent_at then (c, PongOutcome.closed ClientError.bad_timestamp)
  else
    let round_trip_time := now - timestamp
    let c := { c with previous_ping_rtt := round_trip_time }
    let c :=
      if c.ping_after_scheduled_reset_of_reconnect_info then
        { c with ping_after_scheduled_reset_of_reconnect_info := false,
                 reconnect_info := { c.reconnect_info with scheduled_reset := false } }
      else c
    let c := { c with waiting_for_pong := false }
    (c.initiate_ping_delay, PongOutcome.accepted round_trip_time)

/-- `Connection::disconnect` (lines 1139-1185): transition to
`disconnected`, clear the keepalive flags (note that
`m_ping_after_scheduled_reset_of_reconnect_info` is cleared but
`m_reconnect_info.scheduled_reset` is not), then initiate the reconnect
wait. -/
def disconnect (c : Connection) : Connection × Option Delay :=
  let c := { c with
    state := ConnState.disconnected,
    ping_delay_in_progress := false,
    waiting_for_pong := false,
    send_ping := false,
    minimize_next_ping_delay := false,
    ping_after_scheduled_reset_of_reconnect_info := false,
    ping_sent := false,
    previous_ping_rtt := 0 }
  c.initiate_reconnect_wait

/-- Modelled from the spec: `Connection::voluntary_disconnect` (inline in
client_impl_base.hpp, which is not among the sources) records
`closed_voluntarily` in the reconnect info and disconnects. -/
def voluntary_disconnect (c : Connection) : Connection × Option Delay :=
  disconnect { c with
    reconnect_info := c.reconnect_info.update ConnectionTerminationReason.closed_voluntarily }

/-- Modelled from the spec: `Connection::involuntary_disconnect` (inline in
client_impl_base.hpp, which is not among the sources) records the
termination reason in the reconnect info and disconnects. -/
def involuntary_disconnect (c : Connection) (reason : ConnectionTerminationReason) :
    Connection × Option Delay :=
  disconnect { c with reconnect_info := c.reconnect_info.update reason }

end Connection

/-- Externally triggered events of the connection keepalive/reconnect
machinery, used to form traces. -/
inductive ConnEvent
  | cancel_reconnect_delay
  | ping_timer_fired
  | send_ping (now : Int)
  | receive_pong (timestamp now : Int)
  | involuntary_disconnect (reason : ConnectionTerminationReason)
  deriving DecidableEq, Repr

/-- One step of the connection trace semantics; the second component is
the reconnect delay computed by this step, when the step initiated a
reconnect wait. -/
def connStep (c : Connection) : ConnEvent → Connection × Option Delay
  | ConnEvent.cancel_reconnect_delay => c.cancel_reconnect_delay
  | ConnEvent.ping_timer_fired => (c.ping_timer_fired, none)
  | ConnEvent.send_ping now => (c.do_send_ping now, none)
  | ConnEvent.receive_pong timestamp now =>
      match c.receive_pong timestamp now with
      | (c', Connection.PongOutcome.accepted _) => (c', none)
      | (_, Connection.PongOutcome.closed _) =>
          -- close_due_to_protocol_error: involuntary disconnect with
          -- reason sync_protocol_violation (lines 1103-1122)
          c.involuntary_disconnect ConnectionTerminationReason.sync_protocol_violation
  | ConnEvent.involuntary_disconnect reason => c.involuntary_disconnect reason

/-- Run a trace of events, collecting the reconnect delays computed along
the way (most recent last). -/
def connRun (c : Connection) : List ConnEvent → Connection × List Delay
  | [] => (c, [])
  | e :: es =>
      let p := connStep c e
      let q := connRun p.1 es
      (q.1, (match p.2 with | none => [] | some d => [d]) ++ q.2)

/-- Whether a trace contains an accepted PONG round trip. -/
def tracePongAccepted (c : Connection) : List ConnEvent → Bool
  | [] => false
  | e :: es =>
      let accepted :=
        match e with
        | ConnEvent.receive_pong timestamp now =>
            match c.receive_pong timestamp now with
            | (_, Connection.PongOutcome.accepted _) => true
            | _ => false
        | _ => false
      accepted || tracePongAccepted (connStep c e).1 es

/-! ### Session protocol state (client_impl_base.cpp, `ClientImpl::Session`) -/

/-- Upload cursor: `(client_version, last_integrated_server_version)`. -/
structure UploadCursor where
  client_version : Nat
  last_integrated_server_version : Nat
  deriving DecidableEq, Repr

/-- Download cursor: `(server_version, last_integrated_client_version)`. -/
structure DownloadCursor where
  server_version : Nat
  last_integrated_client_version : Nat
  deriving DecidableEq, Repr

/-- A server version with its salt (`SaltedVersion`). -/
structure SaltedVersion where
  version : Nat
  salt : Nat
  deriving DecidableEq, Repr

/-- `SyncProgress`: the triple of cursors carried by DOWNLOAD messages and
kept per session. -/
structure SyncProgress where
  latest_server_version : SaltedVersion
  download : DownloadCursor
  upload : UploadCursor
  deriving DecidableEq, Repr

/-- Life cycle states of `ClientImpl::Session`. -/
inductive SessionLifecycle
  | Unactivated
  | Active
  | Deactivating
  | Deactivated
  deriving DecidableEq, Repr

/-- The output of the local history's `get_status` (the replication
engine is an external collaborator; this is the data it returns). -/
structure HistoryStatus where
  last_version_available : Nat
  progress : SyncProgress
  deriving DecidableEq, Repr

/-- A changeset received in a DOWNLOAD message
(`Transformer::RemoteChangeset`), restricted to the header fields the
per-changeset guards inspect. -/
structure RemoteChangeset where
  remote_version : Nat
  last_integrated_local_version : Nat
  origin_file_ident : Nat
  deriving DecidableEq, Repr

/-- The protocol-relevant state of `ClientImpl::Session`. -/
structure Session where
  state : SessionLifecycle
  suspended : Bool
  bind_message_sent : Bool
  ident_message_sent : Bool
  unbind_message_sent : Bool
  unbound_message_received : Bool
  error_message_received : Bool
  client_error : Bool
  client_file_ident : Nat
  client_file_ident_salt : Nat
  is_flx_sync_session : Bool
  allow_upload : Bool
  progress : SyncProgress
  upload_progress : UploadCursor
  download_progress : DownloadCursor
  upload_target_version : Nat
  last_version_available : Nat
  last_version_selected_for_upload : Nat
  target_download_mark : Nat
  last_download_mark_sent : Nat
  last_download_mark_received : Nat
  last_triggering_download_mark : Nat
  server_version_at_last_download_mark : Nat
  deriving DecidableEq, Repr

namespace Session

/-- `Session::activate` (lines 1616-1686), restricted to its effect on
the progress cursors: read the history status and initialize the cursors
from it (the client-reset-operation branch leaves the status at its
defaults, which this model represents by the given `hist`). -/
def activate (s : Session) (hist : HistoryStatus) : Session :=
  { s with
    last_version_available := hist.last_version_available,
    progress := hist.progress,
    upload_target_version := hist.last_version_available,
    upload_progress := hist.progress.upload,
    last_version_selected_for_upload := hist.progress.upload.client_version,
    download_progress := hist.progress.download,
    state := SessionLifecycle.Active }

/-- Cursor effect of the client-reset branch of
`Session::receive_ident_message` (lines 2248-2279): re-read the history
status of the freshly reset Realm, aim the upload target at the last
version available, reset the upload cursors and re-allow uploads. -/
def apply_client_reset_status (s : Session) (hist : HistoryStatus) : Session :=
  { s with
    last_version_available := hist.last_version_available,
    progress := hist.progress,
    upload_target_version := hist.last_version_available,
    upload_progress := hist.progress.upload,
    download_progress := hist.progress.download,
    allow_upload := true }

/-- `Session::check_received_sync_progress` (lines 2627-2674): the seven
monotonicity conditions a DOWNLOAD progress must satisfy relative to the
session's current progress. -/
def check_received_sync_progress (s : Session) (b : SyncProgress) : Bool :=
  let a := s.progress
  if b.latest_server_version.version < a.latest_server_version.version then false
  else if b.upload.client_version < a.upload.client_version then false
  else if b.upload.client_version > s.last_version_available then false
  else if b.download.server_version < a.download.server_version then false
  else if b.download.server_version > b.latest_server_version.version then false
  else if b.download.last_integrated_client_version < a.download.last_integrated_client_version
    then false
  else if b.download.last_integrated_client_version > b.upload.client_version then false
  else true

/-- Modelled from the spec: `do_recognize_sync_version` is inline in
client_impl_base.hpp, which is not among the sources.  A newly produced
local sync version extends the versions available for upload, and per the
invariant section of the spec the upload target tracks
`last_version_available` (it is set equal to it at activation and at IDENT
reception, and all local versions are to be uploaded). -/
def do_recognize_sync_version (s : Session) (version : Nat) : Session :=
  if version > s.last_version_available then
    { s with last_version_available := version, upload_target_version := version }
  else s

/-- `Session::on_changesets_integrated` (lines 1566-1598), restricted to
its effect on the cursors: advance the download cursor and the session
progress, acknowledge uploads the server has integrated, and recognize
the client version produced by integration. -/
def on_changesets_integrated (s : Session) (client_version : Nat) (progress : SyncProgress) :
    Session :=
  let upload_progressed := progress.upload.client_version > s.progress.upload.client_version
  let s := { s with download_progress := progress.download, progress := progress }
  let s :=
    if upload_progressed then
      if progress.upload.client_version > s.last_version_selected_for_upload then
        let s :=
          if progress.upload.client_version > s.upload_progress.client_version then
            { s with upload_progress := progress.upload }
          else s
        { s with last_version_selected_for_upload := progress.upload.client_version }
      else s
    else s
  s.do_recognize_sync_version client_version

end Session

/-- Result of the per-changeset guard loop of
`Session::receive_download_message` (lines 2351-2388): the first protocol
error detected, if any.  The two accumulators are the running server
version and the running last-integrated-client version, seeded from the
session's download cursor. -/
def validate_changesets (is_flx : Bool) (client_file_ident bound : Nat) :
    Nat → Nat → List RemoteChangeset → Option ClientError
  | _, _, [] => none
  | server_version, last_integrated_client_version, c :: rest =>
      if ¬(if is_flx then c.remote_version ≥ server_version
           else c.remote_version > server_version) then
        some ClientError.bad_server_version
      else if ¬(c.last_integrated_local_version ≥ last_integrated_client_version ∧
                c.last_integrated_local_version ≤ bound) then
        some ClientError.bad_client_version
      else if ¬(c.origin_file_ident > 0 ∧ c.origin_file_ident ≠ client_file_ident) then
        some ClientError.bad_origin_file_ident
      else
        validate_changesets is_flx client_file_ident bound c.remote_version
          c.last_integrated_local_version rest

/-- What `Session::receive_download_message` did with the message. -/
inductive DownloadAction
  | ignored
  | closed (err : ClientError)
  | accepted (changesets : List RemoteChangeset)
  deriving DecidableEq, Repr

namespace Session

/-- `Session::receive_download_message` (lines 2308-2414) up to the point
where the changesets are handed to bootstrap buffering or integration:
the deactivation check, the client-error check, the message-order check,
the sync-progress check and the per-changeset guards.  On `accepted`, the
changesets are forwarded for integration; on `closed`, the connection is
closed with the given protocol error and nothing is forwarded. -/
def receive_download_message (s : Session) (progress : SyncProgress)
    (received_changesets : List RemoteChangeset) : Session × DownloadAction :=
  if s.state ≠ SessionLifecycle.Active then (s, DownloadAction.ignored)
  else if s.client_error then (s, DownloadAction.ignored)
  else if ¬(s.ident_message_sent ∧ ¬s.error_message_received ∧ ¬s.unbound_message_received)
    then (s, DownloadAction.closed ClientError.bad_message_order)
  else if ¬(s.check_received_sync_progress progress) then
    (s, DownloadAction.closed ClientError.bad_progress)
  else
    match validate_changesets s.is_flx_sync_session s.client_file_ident
        progress.download.last_integrated_client_version
        s.progress.download.server_version
        s.progress.download.last_integrated_client_version received_changesets with
    | some e => (s, DownloadAction.closed e)
    | none => (s, DownloadAction.accepted received_changesets)

/-- Result of a session-level receive handler that reports errors by
`std::error_code` (`receive_ident_message`, `receive_mark_message`):
`ok` is the success code, `err` makes the connection close with the given
protocol error. -/
inductive RecvResult
  | ok
  | err (e : ClientError)
  deriving DecidableEq, Repr

/-- `Session::receive_ident_message` (lines 2185-2306): the deactivation
check, the legality checks on the identifier and salt, then either the
client-reset finalization path (`reset_status = some hist`, re-reading
the history status) or the plain path that persists the identifier and
zeroes the progress counters.  The dry-run branch and the
exception-to-suspension path are not modelled. -/
def receive_ident_message (s : Session) (ident salt : Nat) (reset_status : Option HistoryStatus) :
    Session × RecvResult :=
  if s.state ≠ SessionLifecycle.Active then (s, RecvResult.ok)
  else if ¬(s.bind_message_sent ∧ s.client_file_ident = 0 ∧ ¬s.error_message_received ∧
            ¬s.unbound_message_received) then
    (s, RecvResult.err ClientError.bad_message_order)
  else if ident < 1 then (s, RecvResult.err ClientError.bad_client_file_ident)
  else if salt = 0 then (s, RecvResult.err ClientError.bad_client_file_ident_salt)
  else
    let s := { s with client_file_ident := ident, client_file_ident_salt := salt }
    match reset_status with
    | some hist => (s.apply_client_reset_status hist, RecvResult.ok)
    | none =>
        let progress := { s.progress with
          download := { s.progress.download with last_integrated_client_version := 0 },
          upload := { s.progress.upload with client_version := 0 } }
        ({ s with progress := progress, last_version_selected_for_upload := 0 }, RecvResult.ok)

/-- `Session::check_for_download_completion` (lines 2705-2723): state
effect only (the notification callback is external). -/
def check_for_download_completion (s : Session) : Session :=
  if s.last_download_mark_received = s.last_triggering_download_mark then s
  else if s.last_download_mark_received < s.target_download_mark then s
  else if s.download_progress.server_version < s.server_version_at_last_download_mark then s
  else
    let s := { s with last_triggering_download_mark := s.target_download_mark }
    if ¬s.allow_upload then { s with allow_upload := true } else s

/-- `Session::receive_mark_message` (lines 2416-2443): the deactivation
check, the legality check, the request-identifier window check, then
recording the mark and checking for download completion. -/
def receive_mark_message (s : Session) (request_ident : Nat) : Session × RecvResult :=
  if s.state ≠ SessionLifecycle.Active then (s, RecvResult.ok)
  else if ¬(s.ident_message_sent ∧ ¬s.error_message_received ∧ ¬s.unbound_message_received)
    then (s, RecvResult.err ClientError.bad_message_order)
  else if ¬(request_ident ≤ s.last_download_mark_sent ∧
            request_ident > s.last_download_mark_received) then
    (s, RecvResult.err ClientError.bad_request_ident)
  else
    let s := { s with
      server_version_at_last_download_mark := s.progress.download.server_version,
      last_download_mark_received := request_ident }
    (s.check_for_download_completion, RecvResult.ok)

end Session

/-! ### The cursor-modifying operations of a session, as a guarded step
relation (claim C1).  Guards are the checks and assertions the source
performs before the corresponding mutation; an operation whose guard
fails does not occur. -/

/-- The operations that modify the upload cursors after activation. -/
inductive CursorOp
  | ident_after_reset (hist : HistoryStatus)
  | ident_no_reset
  | changesets_integrated (client_version : Nat) (progress : SyncProgress)
  | select_upload (new_upload : UploadCursor) (selected : Nat)
  deriving DecidableEq, Repr

/-- One guarded cursor-modifying step.
* `ident_after_reset`: the assertions at lines 2252-2268 (fresh history
  has zeroed progress counters, nothing selected for upload yet).
* `ident_no_reset`: the plain IDENT path (lines 2296-2301).
* `changesets_integrated`: `check_received_sync_progress` was verified on
  reception (line 2345) and the download cursor assertion at line 1569.
* `select_upload`: the contract of `find_uploadable_changesets`
  (modelled from the spec: uploadable changesets are requested *up to*
  the clipped target, which is at most `upload_target_version`; the scan
  cursor advances, and the last selected changeset is within the scan),
  guarded by the send conditions at lines 1839 and 1971. -/
def cursorStep (s : Session) : CursorOp → Option Session
  | CursorOp.ident_after_reset hist =>
      if hist.progress.download.last_integrated_client_version = 0 ∧
         hist.progress.upload.client_version = 0 ∧
         hist.progress.upload.last_integrated_server_version = 0 ∧
         s.last_version_selected_for_upload = 0 then
        some (s.apply_client_reset_status hist)
      else none
  | CursorOp.ident_no_reset =>
      some { s with
        progress := { s.progress with
          download := { s.progress.download with last_integrated_client_version := 0 },
          upload := { s.progress.upload with client_version := 0 } },
        last_version_selected_for_upload := 0 }
  | CursorOp.changesets_integrated client_version progress =>
      if s.check_received_sync_progress progress ∧
         progress.download.server_version ≥ s.download_progress.server_version then
        some (s.on_changesets_integrated client_version progress)
      else none
  | CursorOp.select_upload new_upload selected =>
      if s.allow_upload ∧ s.upload_target_version > s.upload_progress.client_version ∧
         s.upload_progress.client_version ≤ new_upload.client_version ∧
         new_upload.client_version ≤ s.upload_target_version ∧
         selected ≤ s.upload_target_version then
        some { s with upload_progress := new_upload,
                      last_version_selected_for_upload := selected }
      else none

/-- Run a list of cursor-modifying operations. -/
def cursorRun (s : Session) : List CursorOp → Option Session
  | [] => some s
  | op :: ops =>
      match cursorStep s op with
      | none => none
      | some s' => cursorRun s' ops

/-- The claimed cursor chain:
`upload_progress.client_version ≤ upload_target_version ≤ last_version_available`. -/
def cursorChain (s : Session) : Prop :=
  s.upload_progress.client_version ≤ s.upload_target_version ∧
    s.upload_target_version ≤ s.last_version_available

/-- The chain inducted on: additionally, the upload target coincides with
the last version available throughout a session's life. -/
def cursorInvariant (s : Session) : Prop :=
  s.upload_progress.client_version ≤ s.upload_target_version ∧
    s.upload_target_version = s.last_version_available

/-! ### The chain-shaped specification of the DOWNLOAD per-changeset
guards (claim C2), written from the claim's wording and to be compared
with `validate_changesets`. -/

/-- The claim's description of a well-formed changeset list: each
changeset's `remote_version` strictly above the running server version
(weakly for FLX), `last_integrated_local_version` weakly increasing and
at most the message's `last_integrated_client_version`, and an origin
file identifier that is positive and not the session's own. -/
inductive SpecGoodChangesets (is_flx : Bool) (client_file_ident bound : Nat) :
    Nat → Nat → List RemoteChangeset → Prop
  | nil (sv licv : Nat) : SpecGoodChangesets is_flx client_file_ident bound sv licv []
  | cons (sv licv : Nat) (c : RemoteChangeset) (rest : List RemoteChangeset)
      (hsv : if is_flx then c.remote_version ≥ sv else c.remote_version > sv)
      (hlicv₁ : licv ≤ c.last_integrated_local_version)
      (hlicv₂ : c.last_integrated_local_version ≤ bound)
      (hident₁ : 0 < c.origin_file_ident)
      (hident₂ : c.origin_file_ident ≠ client_file_ident)
      (hrest : SpecGoodChangesets is_flx client_file_ident bound c.remote_version
        c.last_integrated_local_version rest) :
      SpecGoodChangesets is_flx client_file_ident bound sv licv (c :: rest)

/-! ### The sync-session facade (sync_session.cpp, `SyncSession`) -/

/-- Facade life cycle states (`SyncSession::State`). -/
inductive FacadeState
  | Active
  | Dying
  | Inactive
  | Paused
  | WaitingForAccessToken
  deriving DecidableEq, Repr

/-- `SyncSessionStopPolicy`. -/
inductive StopPolicy
  | Immediately
  | LiveIndefinitely
  | AfterChangesUploaded
  deriving DecidableEq, Repr

/-- Connection-state notifier values (`SyncSession::ConnectionState`). -/
inductive FacadeConnState
  | Disconnected
  | Connecting
  | Connected
  deriving DecidableEq, Repr

/-- Directions of completion callbacks (`ProgressDirection`). -/
inductive Direction
  | upload
  | download
  deriving DecidableEq, Repr

/-- A pending completion callback of the facade, identified by its
direction and an abstract payload naming the user callback (request ids
are reassigned on re-registration and are not tracked). -/
structure CompletionCallback where
  direction : Direction
  payload : Nat
  deriving DecidableEq, Repr

/-- The `SyncSession` facade state relevant to close/pause/resume, the
completion-callback table and the client-reset fresh-realm flow.
`needs_token_refresh` abstracts `user() && user()->access_token_refresh_required()`
(the user object is an external collaborator). -/
structure Facade where
  state : FacadeState
  has_session : Bool
  completion_callbacks : List CompletionCallback
  death_count : Nat
  connection_state : FacadeConnState
  registered_with_sync_manager : Bool
  server_requests_action_set : Bool
  fresh_copy_set : Bool
  needs_token_refresh : Bool
  deriving DecidableEq, Repr

namespace Facade

/-- `SyncSession::do_become_inactive` (lines 201-232): record the
disconnected state, drain the pending completion callbacks (returned as
the second component: they are invoked with a cancellation status), drop
the underlying session and unregister from the sync manager. -/
def do_become_inactive (f : Facade) : Facade × List CompletionCallback :=
  let waits := f.completion_callbacks
  ({ f with
      connection_state := FacadeConnState.Disconnected,
      completion_callbacks := [],
      has_session := false,
      registered_with_sync_manager := false }, waits)

/-- `SyncSession::become_inactive` (lines 155-161). -/
def become_inactive (f : Facade) : Facade × List CompletionCallback :=
  do_become_inactive { f with state := FacadeState.Inactive }

/-- `SyncSession::become_active` (lines 86-124): enter `Active`, create
and bind the underlying session when none is held (coming from `Dying`
it still exists), and re-register all pending completion callbacks
(they are swapped out and re-added in order, keeping the table). -/
def become_active (f : Facade) : Facade :=
  let f := { f with state := FacadeState.Active }
  let f := if ¬f.has_session then { f with has_session := true } else f
  f

/-- `SyncSession::become_dying` (lines 132-153): enter `Dying`; with no
underlying session nothing can be uploaded, so become inactive at once;
otherwise bump the death count and wait for upload completion. -/
def become_dying (f : Facade) : Facade × List CompletionCallback :=
  let f := { f with state := FacadeState.Dying }
  if ¬f.has_session then f.become_inactive
  else ({ f with death_count := f.death_count + 1 }, [])

/-- The upload-completion continuation registered by `become_dying`
(lines 144-151): when it fires, the session becomes inactive only if it
is still `Dying` and the death count still matches. -/
def dying_upload_completion (f : Facade) (current_death_count : Nat) :
    Facade × List CompletionCallback :=
  if f.state = FacadeState.Dying ∧ f.death_count = current_death_count then f.become_inactive
  else (f, [])

/-- `SyncSession::become_paused` (lines 163-176). -/
def become_paused (f : Facade) : Facade × List CompletionCallback :=
  let old_state := f.state
  let f := { f with state := FacadeState.Paused }
  if old_state = FacadeState.Inactive then (f, [])
  else f.do_become_inactive

/-- `SyncSession::become_waiting_for_access_token` (lines 234-238). -/
def become_waiting_for_access_token (f : Facade) : Facade :=
  { f with state := FacadeState.WaitingForAccessToken }

/-- `SyncSession::do_revive` (lines 1139-1155): with no user or a fresh
access token, become active; otherwise wait for a token refresh. -/
def do_revive (f : Facade) : Facade :=
  if ¬f.needs_token_refresh then f.become_active
  else f.become_waiting_for_access_token

/-- `SyncSession::close` (lines 1163-1201). -/
def close (f : Facade) (stop_policy : StopPolicy) : Facade × List CompletionCallback :=
  match f.state with
  | FacadeState.Active =>
      match stop_policy with
      | StopPolicy.Immediately => f.become_inactive
      | StopPolicy.LiveIndefinitely => (f, [])
      | StopPolicy.AfterChangesUploaded => f.become_dying
  | FacadeState.Dying => (f, [])
  | FacadeState.Paused => ({ f with registered_with_sync_manager := false }, [])
  | FacadeState.Inactive => ({ f with registered_with_sync_manager := false }, [])
  | FacadeState.WaitingForAccessToken => f.become_inactive

/-- `SyncSession::pause` (lines 1109-1122). -/
def pause (f : Facade) : Facade × List CompletionCallback :=
  match f.state with
  | FacadeState.Active => f.become_paused
  | FacadeState.Dying => f.become_paused
  | FacadeState.WaitingForAccessToken => f.become_paused
  | FacadeState.Inactive => f.become_paused
  | FacadeState.Paused => (f, [])

/-- `SyncSession::resume` (lines 1124-1137). -/
def resume (f : Facade) : Facade :=
  match f.state with
  | FacadeState.Active => f
  | FacadeState.WaitingForAccessToken => f
  | FacadeState.Paused => f.do_revive
  | FacadeState.Dying => f.do_revive
  | FacadeState.Inactive => f.do_revive

/-- `SyncSession::revive_if_needed` (lines 1064-1077). -/
def revive_if_needed (f : Facade) : Facade :=
  match f.state with
  | FacadeState.Active => f
  | FacadeState.WaitingForAccessToken => f
  | FacadeState.Paused => f
  | FacadeState.Dying => f.do_revive
  | FacadeState.Inactive => f.do_revive

/-- The success path of `SyncSession::handle_fresh_realm_downloaded`
(lines 564-622) for a plain client reset (the migration actions
additionally update the sync config, which is out of this model's scope):
record the requested action and the fresh copy, move the pending
completion callbacks aside, pass through the transient `Inactive` state,
merge the callbacks back (scope exit), then revive. -/
def handle_fresh_realm_downloaded_ok (f : Facade) : Facade × List CompletionCallback :=
  if f.state ≠ FacadeState.Active then (f, [])
  else
    let f := { f with server_requests_action_set := true, fresh_copy_set := true }
    let saved := f.completion_callbacks
    let f := { f with completion_callbacks := [] }
    let p := f.become_inactive
    let f := p.1
    let f :=
      if f.completion_callbacks.isEmpty then { f with completion_callbacks := saved }
      else { f with completion_callbacks := saved ++ f.completion_callbacks }
    (f.revive_if_needed, p.2)

/-- The comparison path for the frame property of claim C8: the normal
Inactive-then-revive sequence. -/
def inactive_then_revive (f : Facade) : Facade × List CompletionCallback :=
  let p := f.become_inactive
  (p.1.revive_if_needed, p.2)

end Facade

/-! ### The progress notifier (sync_session.cpp, `SyncProgressNotifier`) -/

/-- A progress snapshot
(`SyncProgressNotifier::Progress`: uploadable, downloadable, uploaded,
downloaded, snapshot_version). -/
structure Progress where
  uploadable : Nat
  downloadable : Nat
  uploaded : Nat
  downloaded : Nat
  snapshot_version : Nat
  deriving DecidableEq, Repr

/-- `SyncProgressNotifier::NotifierPackage` (without the callback
itself). -/
structure NotifierPackage where
  captured_transferrable : Option Nat
  snapshot_version : Nat
  is_streaming : Bool
  is_download : Bool
  deriving DecidableEq, Repr

namespace NotifierPackage

/-- `NotifierPackage::create_invocation` (lines 1604-1631): returns the
updated package, the expiry flag, and the arguments of the produced
invocation (`none` models the empty lambda for a not-yet-reflective
upload notifier). -/
def create_invocation (p : NotifierPackage) (cur : Progress) :
    NotifierPackage × Bool × Option (Nat × Nat) :=
  let transferred := if p.is_download then cur.downloaded else cur.uploaded
  let transferrable := if p.is_download then cur.downloadable else cur.uploadable
  if ¬p.is_streaming ∧ ¬p.is_download ∧ p.snapshot_version > cur.snapshot_version then
    (p, false, none)
  else
    let captured_result : NotifierPackage × Nat :=
      if ¬p.is_streaming then
        let captured :=
          match p.captured_transferrable with
          | none => transferrable
          | some c => if c > transferrable then transferrable else c
        ({ p with captured_transferrable := some captured }, captured)
      else (p, transferrable)
    let p := captured_result.1
    let transferrable := captured_result.2
    let is_expired := decide (¬p.is_streaming ∧ transferred ≥ transferrable)
    (p, is_expired, some (transferred, transferrable))

end NotifierPackage

/-- The `SyncProgressNotifier` state. -/
structure ProgressNotifier where
  local_transaction_version : Nat
  progress_notifier_token : Nat
  current_progress : Option Progress
  packages : List (Nat × NotifierPackage)
  deriving DecidableEq, Repr

namespace ProgressNotifier

/-- `SyncProgressNotifier::register_callback` (lines 1541-1567): result
is the new notifier state, the returned token, and the arguments of the
immediate invocation when one is produced. -/
def register_callback (n : ProgressNotifier) (direction_is_download is_streaming : Bool) :
    ProgressNotifier × Nat × Option (Nat × Nat) :=
  let token_value := n.progress_notifier_token
  let n := { n with progress_notifier_token := n.progress_notifier_token + 1 }
  let package : NotifierPackage :=
    { captured_transferrable := none, snapshot_version := n.local_transaction_version,
      is_streaming := is_streaming, is_download := direction_is_download }
  match n.current_progress with
  | none => ({ n with packages := n.packages ++ [(token_value, package)] }, token_value, none)
  | some cur =>
      let r := package.create_invocation cur
      let skip_registration := r.2.1
      if skip_registration then (n, 0, r.2.2)
      else ({ n with packages := n.packages ++ [(token_value, r.1)] }, token_value, r.2.2)

end ProgressNotifier

/-! ### Concrete sample states used by counterexamples and witnesses -/

/-- A backoff state that has already grown past its base delay, with the
usual production parameters (1 s base, 2× multiplier, 5 min cap). -/
def sampleBackoff : BackoffState :=
  { triggering_error := some ConnectionTerminationReason.read_or_write_error,
    cur_delay := 2000, resumption_delay_interval := 1000,
    max_resumption_delay_interval := 300000, backoff_multiplier := 2 }

/-- A healthy connected connection in normal reconnect mode whose backoff
state carries a previous read/write error. -/
def sampleConn : Connection :=
  { state := ConnState.connected, force_closed := false,
    reconnect_delay_in_progress := false, nonzero_reconnect_delay := true,
    reconnect_info := { scheduled_reset := false, backoff_state := sampleBackoff,
                        reconnect_mode := ReconnectMode.normal },
    ping_delay_in_progress := true, waiting_for_pong := false, send_ping := false,
    minimize_next_ping_delay := false,
    ping_after_scheduled_reset_of_reconnect_info := false, ping_sent := true,
    last_ping_sent_at := 0, previous_ping_rtt := 0 }

/-- A paused facade whose user's access token requires a refresh. -/
def pausedFacadeNeedingRefresh : Facade :=
  { state := FacadeState.Paused, has_session := false,
    completion_callbacks := [], death_count := 0,
    connection_state := FacadeConnState.Disconnected,
    registered_with_sync_manager := false, server_requests_action_set := false,
    fresh_copy_set := false, needs_token_refresh := true }

/-- An active facade holding an underlying session, a pending upload wait
and a pending download wait, with a fresh access token. -/
def sampleActiveFacade : Facade :=
  { state := FacadeState.Active, has_session := true,
    completion_callbacks := [⟨Direction.upload, 1⟩, ⟨Direction.download, 2⟩],
    death_count := 3,
    connection_state := FacadeConnState.Connected,
    registered_with_sync_manager := true, server_requests_action_set := false,
    fresh_copy_set := false, needs_token_refresh := false }

/-- A notifier with current progress data whose upload side is complete
(`uploaded = uploadable = 10`) but whose local transaction version (5) is
ahead of the snapshot covered by the progress data (3). -/
def sampleNotifier : ProgressNotifier :=
  { local_transaction_version := 5, progress_notifier_token := 7,
    current_progress := some
      { uploadable := 10, downloadable := 0, uploaded := 10, downloaded := 0,
        snapshot_version := 3 },
    packages := [] }

/-- A freshly constructed, unactivated session. -/
def sampleSession : Session :=
  { state := SessionLifecycle.Unactivated, suspended := false,
    bind_message_sent := false, ident_message_sent := false,
    unbind_message_sent := false, unbound_message_received := false,
    error_message_received := false, client_error := false,
    client_file_ident := 0, client_file_ident_salt := 0,
    is_flx_sync_session := false, allow_upload := false,
    progress := { latest_server_version := { version := 0, salt := 0 },
                  download := { server_version := 0, last_integrated_client_version := 0 },
                  upload := { client_version := 0, last_integrated_server_version := 0 } },
    upload_progress := { client_version := 0, last_integrated_server_version := 0 },
    download_progress := { server_version := 0, last_integrated_client_version := 0 },
    upload_target_version := 0, last_version_available := 0,
    last_version_selected_for_upload := 0,
    target_download_mark := 0, last_download_mark_sent := 0,
    last_download_mark_received := 0, last_triggering_download_mark := 0,
    server_version_at_last_download_mark := 0 }

/-- A history status with three local versions available, none uploaded
or integrated yet. -/
def sampleHist : HistoryStatus :=
  { last_version_available := 3,
    progress := { latest_server_version := { version := 0, salt := 0 },
                  download := { server_version := 0, last_integrated_client_version := 0 },
                  upload := { client_version := 0, last_integrated_server_version := 0 } } }

/-- An activated PBS session that has sent BIND and IDENT, two local
versions still to upload. -/
def sampleActiveSession : Session :=
  { sampleSession with
    state := SessionLifecycle.Active, bind_message_sent := true,
    ident_message_sent := true, client_file_ident := 9, client_file_ident_salt := 1,
    allow_upload := true,
    upload_target_version := 3, last_version_available := 3,
    upload_progress := { client_version := 1, last_integrated_server_version := 0 },
    progress := { latest_server_version := { version := 5, salt := 1 },
                  download := { server_version := 4, last_integrated_client_version := 1 },
                  upload := { client_version := 1, last_integrated_server_version := 0 } },
    download_progress := { server_version := 4, last_integrated_client_version := 1 } }

/-- A download progress strictly ahead of `sampleActiveSession`'s. -/
def sampleDownloadProgress : SyncProgress :=
  { latest_server_version := { version := 7, salt := 1 },
    download := { server_version := 6, last_integrated_client_version := 2 },
    upload := { client_version := 2, last_integrated_server_version := 5 } }

/-- A changeset acceptable to `sampleActiveSession` under
`sampleDownloadProgress`. -/
def sampleChangeset : RemoteChangeset :=
  { remote_version := 5, last_integrated_local_version := 2, origin_file_ident := 4 }

/-! ## Theorems -/

/-- Recording a termination reason makes it the triggering error of the
backoff state. -/
theorem backoffState_update_triggering (s : BackoffState) (r : ConnectionTerminationReason) :
    (s.update r).triggering_error = some r := by
  unfold BackoffState.update
  split
  · assumption
  · rfl

/-- With no scheduled reset pending, a triggering error subject to the
exponential schedule, and normal reconnect mode, `delay_interval` returns
the backoff state's current delay and advances the schedule. -/
theorem reconnectInfo_delay_backoff (b : BackoffState) (r : ConnectionTerminationReason)
    (hb : b.triggering_error = some r)
    (hr₁ : r ≠ ConnectionTerminationReason.closed_voluntarily)
    (hr₂ : r ≠ ConnectionTerminationReason.server_said_do_not_reconnect) :
    ReconnectInfo.delay_interval
        { scheduled_reset := false, backoff_state := b, reconnect_mode := ReconnectMode.normal }
      = (Delay.finite b.cur_delay,
          { scheduled_reset := false, backoff_state := (b.delay_interval).2,
            reconnect_mode := ReconnectMode.normal }) := by
  unfold ReconnectInfo.delay_interval
  simp only [Bool.false_eq_true, if_false]
  rw [hb]
  cases r <;> simp_all [BackoffState.delay_interval]

/-- Resetting the backoff state clears the triggering error. -/
theorem backoffState_reset_triggering (s : BackoffState) : (s.reset).triggering_error = none :=
  rfl

/-- With no triggering error and no scheduled reset, the next delay is
zero. -/
theorem reconnectInfo_delay_none (b : BackoffState) (mode : ReconnectMode)
    (hb : b.triggering_error = none) :
    ReconnectInfo.delay_interval
        { scheduled_reset := false, backoff_state := b, reconnect_mode := mode }
      = (Delay.finite 0,
          { scheduled_reset := false, backoff_state := b, reconnect_mode := mode }) := by
  unfold ReconnectInfo.delay_interval
  simp [hb]

/-- With `server_said_do_not_reconnect` as triggering error and no
scheduled reset, the next delay is infinite. -/
theorem reconnectInfo_delay_do_not_reconnect (b : BackoffState) (mode : ReconnectMode)
    (hb : b.triggering_error = some ConnectionTerminationReason.server_said_do_not_reconnect) :
    ReconnectInfo.delay_interval
        { scheduled_reset := false, backoff_state := b, reconnect_mode := mode }
      = (Delay.infinite,
          { scheduled_reset := false, backoff_state := b, reconnect_mode := mode }) := by
  unfold ReconnectInfo.delay_interval
  simp [hb]

/-- C3. The claim, read at an explicit connection and trace: if the first
reconnect delay computed after a `cancel_reconnect_delay()` issued while
connected is zero, then the trace contains an accepted PING/PONG round
trip.  The code does the opposite: an accepted PONG for a post-reset PING
*cancels* the scheduled reset (`receive_pong`, lines 1216-1223), so the
delay becomes zero exactly when no such PONG arrived.  Here the
connection disconnects with a read/write error before any PONG, yet the
next computed delay is zero, refuting the claim. -/
theorem c3_counterexample :
    (connRun sampleConn
        [ConnEvent.cancel_reconnect_delay,
         ConnEvent.involuntary_disconnect
           ConnectionTerminationReason.read_or_write_error]).2.head?
        = some (Delay.finite 0) ∧
      tracePongAccepted sampleConn
        [ConnEvent.cancel_reconnect_delay,
         ConnEvent.involuntary_disconnect
           ConnectionTerminationReason.read_or_write_error] = false := by
  decide

/-- C3 (amended). After `cancel_reconnect_delay()` while connected, the
next computed reconnect delay is zero *unless* a PONG arrives for a PING
sent after the reset was scheduled before the reset is consumed: such a
PONG cancels the scheduled reset and the exponential backoff continues
normally. -/
theorem c3_amended_scheduled_reset (c : Connection) (r : ConnectionTerminationReason)
    (t now : Int)
    (hconn : c.state = ConnState.connected)
    (hfc : c.force_closed = false)
    (hrdp : c.reconnect_delay_in_progress = false)
    (hpdp : c.ping_delay_in_progress = true)
    (hmode : c.reconnect_info.reconnect_mode = ReconnectMode.normal)
    (hr₁ : r ≠ ConnectionTerminationReason.closed_voluntarily)
    (hr₂ : r ≠ ConnectionTerminationReason.server_said_do_not_reconnect) :
    (connRun c [ConnEvent.cancel_reconnect_delay, ConnEvent.involuntary_disconnect r]).2
        = [Delay.finite 0] ∧
      (connRun c [ConnEvent.cancel_reconnect_delay, ConnEvent.ping_timer_fired,
          ConnEvent.send_ping t, ConnEvent.receive_pong t now,
          ConnEvent.involuntary_disconnect r]).2
        = [Delay.finite ((c.reconnect_info.backoff_state.update r).delay_interval).1] := by
  rcases c with ⟨st, fc, rdp, nzd, ⟨sr, bo, mode⟩, pdp, wfp, sp, mnpd, pasr, ps, lpsa, ppr⟩
  simp only at hconn hfc hrdp hpdp hmode
  subst hconn hfc hrdp hpdp hmode
  constructor
  · simp [connRun, connStep, Connection.cancel_reconnect_delay,
      Connection.schedule_urgent_ping, Connection.initiate_ping_delay,
      Connection.involuntary_disconnect, Connection.disconnect,
      Connection.initiate_reconnect_wait, ReconnectInfo.update, ReconnectInfo.reset,
      ReconnectInfo.delay_interval, BackoffState.update, BackoffState.reset]
  · simp [connRun, connStep, Connection.cancel_reconnect_delay,
      Connection.schedule_urgent_ping, Connection.initiate_ping_delay,
      Connection.ping_timer_fired, Connection.do_send_ping, Connection.receive_pong,
      Connection.involuntary_disconnect, Connection.disconnect,
      Connection.initiate_reconnect_wait, ReconnectInfo.update,
      reconnectInfo_delay_backoff _ r (backoffState_update_triggering bo r) hr₁ hr₂,
      BackoffState.delay_interval]

/-- C3 witness: the amended theorem applied at `sampleConn`. -/
theorem c3_amended_scheduled_reset_witness :
    (connRun sampleConn
        [ConnEvent.cancel_reconnect_delay,
         ConnEvent.involuntary_disconnect ConnectionTerminationReason.pong_timeout]).2
      = [Delay.finite 0] :=
  (c3_amended_scheduled_reset sampleConn ConnectionTerminationReason.pong_timeout 4 9
    rfl rfl rfl rfl rfl (by decide) (by decide)).1

/-- C4. The claim predicts that after a `server_said_do_not_reconnect`
termination the reconnect delay stays infinite even when
`cancel_reconnect_delay()` is called during the reconnect wait.  In the
code, `cancel_reconnect_delay` (lines 361-374) unconditionally resets the
backoff state (clearing the recorded reason) and immediately initiates a
new reconnect wait, whose computed delay is zero. -/
theorem c4_counterexample :
    (connRun sampleConn
        [ConnEvent.involuntary_disconnect
           ConnectionTerminationReason.server_said_do_not_reconnect,
         ConnEvent.cancel_reconnect_delay]).2
        = [Delay.infinite, Delay.finite 0] ∧
      Delay.finite 0 ≠ Delay.infinite := by
  decide

/-- C4 (amended). After a termination with `server_said_do_not_reconnect`
(no scheduled reset pending) the computed reconnect delay is infinite and
no reconnect timer is started; but a subsequent `cancel_reconnect_delay()`
while the reconnect wait is in progress resets the backoff state and
immediately initiates a reconnect with zero delay. -/
theorem c4_amended_do_not_reconnect (c : Connection)
    (hfc : c.force_closed = false)
    (hsr : c.reconnect_info.scheduled_reset = false) :
    (connRun c [ConnEvent.involuntary_disconnect
        ConnectionTerminationReason.server_said_do_not_reconnect]).2
        = [Delay.infinite] ∧
      (connRun c [ConnEvent.involuntary_disconnect
          ConnectionTerminationReason.server_said_do_not_reconnect,
        ConnEvent.cancel_reconnect_delay]).2
        = [Delay.infinite, Delay.finite 0] := by
  rcases c with ⟨st, fc, rdp, nzd, ⟨sr, bo, mode⟩, pdp, wfp, sp, mnpd, pasr, ps, lpsa, ppr⟩
  simp only at hfc hsr
  subst hfc hsr
  have h1 := reconnectInfo_delay_do_not_reconnect
    (bo.update ConnectionTerminationReason.server_said_do_not_reconnect) mode
    (backoffState_update_triggering bo _)
  have h2 := reconnectInfo_delay_none
    ((bo.update ConnectionTerminationReason.server_said_do_not_reconnect).reset) mode
    (backoffState_reset_triggering _)
  constructor <;>
    simp [connRun, connStep, Connection.cancel_reconnect_delay,
      Connection.involuntary_disconnect, Connection.disconnect,
      Connection.initiate_reconnect_wait, ReconnectInfo.update, ReconnectInfo.reset,
      h1, h2]

/-- C4 witness: the amended theorem applied at `sampleConn`. -/
theorem c4_amended_do_not_reconnect_witness :
    (connRun sampleConn
        [ConnEvent.involuntary_disconnect
           ConnectionTerminationReason.server_said_do_not_reconnect]).2
      = [Delay.infinite] :=
  (c4_amended_do_not_reconnect sampleConn rfl rfl).1

/-- C5. A PONG is accepted exactly when the connection is waiting for a
PONG (`m_waiting_for_pong` set, no PING pending) and the PONG's timestamp
equals that of the most recently sent PING; a PONG outside the window
closes the connection with `bad_message_order`, a timestamp mismatch with
`bad_timestamp`; on acceptance the round-trip time `now - timestamp` is
recorded (`receive_pong`, lines 1192-1232). -/
theorem c5_pong_acceptance (c : Connection) (timestamp now : Int) :
    ((c.waiting_for_pong = true ∧ c.send_ping = false ∧ timestamp = c.last_ping_sent_at) →
        (c.receive_pong timestamp now).2 = Connection.PongOutcome.accepted (now - timestamp) ∧
          (c.receive_pong timestamp now).1.previous_ping_rtt = now - timestamp ∧
          (c.receive_pong timestamp now).1.waiting_for_pong = false) ∧
      (¬(c.waiting_for_pong = true ∧ c.send_ping = false) →
        c.receive_pong timestamp now =
          (c, Connection.PongOutcome.closed ClientError.bad_message_order)) ∧
      ((c.waiting_for_pong = true ∧ c.send_ping = false) → timestamp ≠ c.last_ping_sent_at →
        c.receive_pong timestamp now =
          (c, Connection.PongOutcome.closed ClientError.bad_timestamp)) := by
  refine ⟨?_, ?_, ?_⟩
  · rintro ⟨hw, hs, ht⟩
    cases hpasr : c.ping_after_scheduled_reset_of_reconnect_info <;>
      simp [Connection.receive_pong, Connection.initiate_ping_delay, hw, hs, ht, hpasr]
  · intro hleg
    cases hw : c.waiting_for_pong with
    | false => simp [Connection.receive_pong, hw]
    | true =>
        cases hs : c.send_ping with
        | false => exact absurd ⟨hw, hs⟩ hleg
        | true => simp [Connection.receive_pong, hw, hs]
  · rintro ⟨hw, hs⟩ ht
    simp [Connection.receive_pong, hw, hs, ht]

/-- C5 witness: at a connection waiting for a PONG stamped 4, a PONG with
timestamp 4 at time 9 is accepted with round-trip time 5, and a PONG with
timestamp 3 closes the connection with `bad_timestamp`. -/
theorem c5_pong_acceptance_witness :
    (Connection.receive_pong
        { sampleConn with waiting_for_pong := true, last_ping_sent_at := 4 } 4 9).2
        = Connection.PongOutcome.accepted 5 ∧
      Connection.receive_pong
          { sampleConn with waiting_for_pong := true, last_ping_sent_at := 4 } 3 9 =
        ({ sampleConn with waiting_for_pong := true, last_ping_sent_at := 4 },
          Connection.PongOutcome.closed ClientError.bad_timestamp) := by
  constructor
  · have h := (c5_pong_acceptance
      { sampleConn with waiting_for_pong := true, last_ping_sent_at := 4 } 4 9).1
      (by refine ⟨rfl, by decide, rfl⟩)
    simpa using h.1
  · exact (c5_pong_acceptance
      { sampleConn with waiting_for_pong := true, last_ping_sent_at := 4 } 3 9).2.2
      ⟨rfl, by decide⟩ (by decide)

/-- C9. Once a session's life cycle state is no longer `Active`, the
IDENT, DOWNLOAD and MARK handlers ignore the message: they report
success, leave the session unchanged and do not close the connection
(lines 2190-2194, 2312-2316, 2420-2424). -/
theorem c9_handlers_ignore_after_deactivation (s : Session) (ident salt request_ident : Nat)
    (reset_status : Option HistoryStatus) (progress : SyncProgress)
    (cs : List RemoteChangeset) (hna : s.state ≠ SessionLifecycle.Active) :
    s.receive_ident_message ident salt reset_status = (s, Session.RecvResult.ok) ∧
      s.receive_download_message progress cs = (s, DownloadAction.ignored) ∧
      s.receive_mark_message request_ident = (s, Session.RecvResult.ok) := by
  refine ⟨?_, ?_, ?_⟩ <;>
    simp [Session.receive_ident_message, Session.receive_download_message,
      Session.receive_mark_message, hna]

/-- C9 witness: a deactivating session ignores all three messages. -/
theorem c9_handlers_ignore_after_deactivation_witness :
    Session.receive_ident_message
        { sampleActiveSession with state := SessionLifecycle.Deactivating } 3 1 none
        = ({ sampleActiveSession with state := SessionLifecycle.Deactivating },
            Session.RecvResult.ok) ∧
      Session.receive_download_message
          { sampleActiveSession with state := SessionLifecycle.Deactivating }
          sampleDownloadProgress [sampleChangeset]
        = ({ sampleActiveSession with state := SessionLifecycle.Deactivating },
            DownloadAction.ignored) ∧
      Session.receive_mark_message
          { sampleActiveSession with state := SessionLifecycle.Deactivating } 1
        = ({ sampleActiveSession with state := SessionLifecycle.Deactivating },
            Session.RecvResult.ok) :=
  c9_handlers_ignore_after_deactivation
    { sampleActiveSession with state := SessionLifecycle.Deactivating } 3 1 1 none
    sampleDownloadProgress [sampleChangeset] (by decide)

/-- C6. `close()` on an `Active` facade: stop policy `Immediately` makes
it `Inactive`; `LiveIndefinitely` leaves it untouched;
`AfterChangesUploaded` makes it `Dying` (given it holds an underlying
session), and the registered upload-completion continuation later takes a
still-`Dying` facade with a matching death count to `Inactive`
(close, lines 1163-1201; become_dying, lines 132-153). -/
theorem c6_close_stop_policy (f : Facade) (hact : f.state = FacadeState.Active)
    (hsess : f.has_session = true) :
    (f.close StopPolicy.Immediately).1.state = FacadeState.Inactive ∧
      f.close StopPolicy.LiveIndefinitely = (f, []) ∧
      (f.close StopPolicy.AfterChangesUploaded).1.state = FacadeState.Dying ∧
      (∀ g : Facade, g.state = FacadeState.Dying →
        (g.dying_upload_completion g.death_count).1.state = FacadeState.Inactive) := by
  refine ⟨?_, ?_, ?_, ?_⟩
  · simp [Facade.close, Facade.become_inactive, Facade.do_become_inactive, hact]
  · simp [Facade.close, hact]
  · simp [Facade.close, Facade.become_dying, Facade.become_inactive,
      Facade.do_become_inactive, hact, hsess]
  · intro g hg
    simp [Facade.dying_upload_completion, Facade.become_inactive,
      Facade.do_become_inactive, hg]

/-- C6 witness: the theorem applied at `sampleActiveFacade`. -/
theorem c6_close_stop_policy_witness :
    (sampleActiveFacade.close StopPolicy.Immediately).1.state = FacadeState.Inactive ∧
      (sampleActiveFacade.close StopPolicy.AfterChangesUploaded).1.state
        = FacadeState.Dying := by
  have h := c6_close_stop_policy sampleActiveFacade rfl rfl
  exact ⟨h.1, h.2.2.1⟩

/-- C7. The claim asserts that `resume()` from `Paused` enters `Active`;
but when the user's access token requires a refresh, `do_revive`
(lines 1139-1155) enters `WaitingForAccessToken` instead and initiates a
token refresh. -/
theorem c7_counterexample :
    (Facade.resume pausedFacadeNeedingRefresh).state = FacadeState.WaitingForAccessToken ∧
      FacadeState.WaitingForAccessToken ≠ FacadeState.Active := by
  decide

/-- C7 (amended). `pause()` on an already-`Paused` facade is a no-op, and
`resume()` from `Paused` enters `Active` when no access-token refresh is
required; otherwise it enters `WaitingForAccessToken` pending the
refresh. -/
theorem c7_amended_pause_resume (f : Facade) (hp : f.state = FacadeState.Paused) :
    f.pause = (f, []) ∧
      (f.needs_token_refresh = false → (f.resume).state = FacadeState.Active) ∧
      (f.needs_token_refresh = true →
        (f.resume).state = FacadeState.WaitingForAccessToken) := by
  refine ⟨?_, ?_, ?_⟩
  · simp [Facade.pause, hp]
  · intro h
    cases hhs : f.has_session <;>
      simp [Facade.resume, Facade.do_revive, Facade.become_active, hp, h, hhs]
  · intro h
    simp [Facade.resume, Facade.do_revive, Facade.become_waiting_for_access_token, hp, h]

/-- C7 witness: the amended theorem applied at a paused facade with a
fresh token (resume reaches `Active`) and pause as a no-op. -/
theorem c7_amended_pause_resume_witness :
    Facade.pause { pausedFacadeNeedingRefresh with needs_token_refresh := false }
        = ({ pausedFacadeNeedingRefresh with needs_token_refresh := false }, []) ∧
      (Facade.resume { pausedFacadeNeedingRefresh with needs_token_refresh := false }).state
        = FacadeState.Active := by
  have h := c7_amended_pause_resume
    { pausedFacadeNeedingRefresh with needs_token_refresh := false } rfl
  exact ⟨h.1, h.2.1 rfl⟩

/-- C8. On the successful fresh-realm download of a client reset
(`handle_fresh_realm_downloaded`, lines 564-622), the pending completion
callbacks are moved aside before the transient `Inactive` transition, so
nothing is drained with an abort status; they are merged back and
re-registered when the session next becomes `Active`; and apart from the
callback table the resulting facade is exactly what the normal
Inactive-then-revive path produces (on the facade with the requested
action and fresh copy recorded). -/
theorem c8_fresh_realm_callbacks (f : Facade) (hact : f.state = FacadeState.Active)
    (href : f.needs_token_refresh = false) :
    (f.handle_fresh_realm_downloaded_ok).2 = [] ∧
      (f.handle_fresh_realm_downloaded_ok).1.completion_callbacks = f.completion_callbacks ∧
      (f.handle_fresh_realm_downloaded_ok).1.state = FacadeState.Active ∧
      (f.handle_fresh_realm_downloaded_ok).1 =
        { (Facade.inactive_then_revive
            { f with server_requests_action_set := true, fresh_copy_set := true,
                     completion_callbacks := [] }).1
          with completion_callbacks := f.completion_callbacks } := by
  rcases f with ⟨st, hsess, cbs, dc, cs, reg, sra, fcs, ntr⟩
  simp only at hact href
  subst hact href
  refine ⟨?_, ?_, ?_, ?_⟩ <;>
    simp [Facade.handle_fresh_realm_downloaded_ok, Facade.become_inactive,
      Facade.do_become_inactive, Facade.inactive_then_revive, Facade.revive_if_needed,
      Facade.do_revive, Facade.become_active]

/-- C8 witness: the theorem applied at `sampleActiveFacade`, which holds
two pending completion callbacks. -/
theorem c8_fresh_realm_callbacks_witness :
    (sampleActiveFacade.handle_fresh_realm_downloaded_ok).2 = [] ∧
      (sampleActiveFacade.handle_fresh_realm_downloaded_ok).1.completion_callbacks
        = sampleActiveFacade.completion_callbacks ∧
      (sampleActiveFacade.handle_fresh_realm_downloaded_ok).1.state = FacadeState.Active := by
  have h := c8_fresh_realm_callbacks sampleActiveFacade rfl rfl
  exact ⟨h.1, h.2.1, h.2.2.1⟩

/-- C10. The claim asserts that a non-streaming callback registered while
progress data exists, whose direction is already complete
(`transferred ≥ transferrable`), is invoked immediately, not stored, with
token 0.  For an *upload* callback whose registration snapshot (the local
transaction version, here 5) is ahead of the progress snapshot (here 3),
`create_invocation` (lines 1609-1614) instead produces the empty
invocation and the package *is* stored under a nonzero token, refuting
the claim. -/
theorem c10_counterexample :
    (sampleNotifier.register_callback false false).2.1 = 7 ∧
      (7 : Nat) ≠ 0 ∧
      (sampleNotifier.register_callback false false).2.2 = none ∧
      (sampleNotifier.register_callback false false).1.packages ≠ [] := by
  decide

/-- C10 (amended). A non-streaming callback registered while current
progress data exists, whose direction is complete
(`transferred ≥ transferrable`), and which is either a download callback
or an upload callback whose registration snapshot does not exceed the
progress snapshot, is invoked exactly once immediately with
`(transferred, transferrable)`, no registration is stored, and the
returned token is 0. -/
theorem c10_amended_register_complete (n : ProgressNotifier) (is_download : Bool)
    (cur : Progress) (hcur : n.current_progress = some cur)
    (hsnap : is_download = true ∨ n.local_transaction_version ≤ cur.snapshot_version)
    (hdone : (if is_download = true then cur.downloadable else cur.uploadable) ≤
             (if is_download = true then cur.downloaded else cur.uploaded)) :
    n.register_callback is_download false =
      ({ n with progress_notifier_token := n.progress_notifier_token + 1 }, 0,
        some ((if is_download = true then cur.downloaded else cur.uploaded),
              (if is_download = true then cur.downloadable else cur.uploadable))) := by
  cases is_download with
  | true =>
      simp only [if_true] at hdone ⊢
      simp [ProgressNotifier.register_callback, NotifierPackage.create_invocation, hcur, hdone]
  | false =>
      rcases hsnap with h | h
      · exact absurd h (by simp)
      · simp only [Bool.false_eq_true, if_false] at hdone ⊢
        simp [ProgressNotifier.register_callback, NotifierPackage.create_invocation, hcur,
          hdone, Nat.not_lt.mpr h]

/-- C10 witness: the amended theorem applied at `sampleNotifier` for the
download direction, whose transfer is complete (0 of 0 bytes). -/
theorem c10_amended_register_complete_witness :
    sampleNotifier.register_callback true false
      = ({ sampleNotifier with progress_notifier_token := 8 }, 0, some (0, 0)) := by
  have h := c10_amended_register_complete sampleNotifier true _ rfl (Or.inl rfl) (by decide)
  simpa using h

/-- A DOWNLOAD progress that passes `check_received_sync_progress` has an
upload cursor within the versions locally available. -/
theorem check_sync_progress_upload_le (s : Session) (b : SyncProgress)
    (h : s.check_received_sync_progress b = true) :
    b.upload.client_version ≤ s.last_version_available := by
  unfold Session.check_received_sync_progress at h
  split_ifs at h <;> simp_all

/-- Each guarded cursor-modifying operation preserves the strengthened
invariant: the upload scan never passes the upload target, and the upload
target coincides with the last version available. -/
theorem cursorStep_preserves_invariant {s s' : Session} {op : CursorOp}
    (h : cursorStep s op = some s') (hinv : cursorInvariant s) : cursorInvariant s' := by
  obtain ⟨hle, heq⟩ := hinv
  cases op with
  | ident_after_reset hist =>
      simp only [cursorStep] at h
      split_ifs at h with hg
      obtain ⟨hg1, hg2, hg3, hg4⟩ := hg
      injection h with h
      subst h
      exact ⟨by simp [Session.apply_client_reset_status, hg2],
        by simp [Session.apply_client_reset_status]⟩
  | ident_no_reset =>
      simp only [cursorStep, Option.some.injEq] at h
      subst h
      exact ⟨hle, heq⟩
  | changesets_integrated client_version progress =>
      simp only [cursorStep] at h
      split_ifs at h with hg
      obtain ⟨hcheck, hdl⟩ := hg
      injection h with h
      subst h
      have hup : progress.upload.client_version ≤ s.last_version_available :=
        check_sync_progress_upload_le s progress hcheck
      unfold Session.on_changesets_integrated Session.do_recognize_sync_version
      simp only [cursorInvariant]
      split_ifs <;> simp_all <;> omega
  | select_upload new_upload selected =>
      simp only [cursorStep] at h
      split_ifs at h with hg
      obtain ⟨hg1, hg2, hg3, hg4, hg5⟩ := hg
      injection h with h
      subst h
      exact ⟨by simpa using hg4, by simpa using heq⟩

/-- Running any list of guarded cursor operations preserves the
strengthened invariant. -/
theorem cursorRun_preserves_invariant (ops : List CursorOp) :
    ∀ s s' : Session, cursorRun s ops = some s' → cursorInvariant s → cursorInvariant s' := by
  induction ops with
  | nil =>
      intro s s' h hinv
      simp only [cursorRun, Option.some.injEq] at h
      subst h
      exact hinv
  | cons op ops ih =>
      intro s s' h hinv
      simp only [cursorRun] at h
      rcases hs : cursorStep s op with _ | s₁
      · rw [hs] at h
        simp at h
      · rw [hs] at h
        exact ih _ _ h (cursorStep_preserves_invariant hs hinv)

/-- C1. From activation on, through any sequence of the cursor-modifying
operations (IDENT reception with or without a client reset, changeset
integration, upload selection), the chain
`upload_progress.client_version ≤ upload_target_version ≤ last_version_available`
holds — the assertions at lines 1837-1838. -/
theorem c1_upload_cursor_chain (s0 : Session) (hist : HistoryStatus) (ops : List CursorOp)
    (s' : Session)
    (hh : hist.progress.upload.client_version ≤ hist.last_version_available)
    (hrun : cursorRun (s0.activate hist) ops = some s') :
    s'.upload_progress.client_version ≤ s'.upload_target_version ∧
      s'.upload_target_version ≤ s'.last_version_available := by
  have hbase : cursorInvariant (s0.activate hist) :=
    ⟨by simpa [Session.activate] using hh, by simp [Session.activate]⟩
  have hinv := cursorRun_preserves_invariant ops _ _ hrun hbase
  exact ⟨hinv.1, le_of_eq hinv.2⟩

/-- C1 witness: activation from `sampleHist` followed by a plain IDENT
reception keeps the chain. -/
theorem c1_upload_cursor_chain_witness :
    ∃ s', cursorRun (sampleSession.activate sampleHist) [CursorOp.ident_no_reset] = some s' ∧
      s'.upload_progress.client_version ≤ s'.upload_target_version ∧
      s'.upload_target_version ≤ s'.last_version_available := by
  rcases hrun : cursorRun (sampleSession.activate sampleHist) [CursorOp.ident_no_reset]
    with _ | s'
  · exact absurd hrun (by decide)
  · exact ⟨s', rfl, c1_upload_cursor_chain sampleSession sampleHist _ s' (by decide) hrun⟩

/-- The DOWNLOAD per-changeset guard loop accepts a changeset list
exactly when it satisfies the chain-shaped specification. -/
theorem validate_changesets_none_iff (is_flx : Bool) (ident bound : Nat)
    (cs : List RemoteChangeset) : ∀ sv licv : Nat,
    validate_changesets is_flx ident bound sv licv cs = none ↔
      SpecGoodChangesets is_flx ident bound sv licv cs := by
  induction cs with
  | nil =>
      intro sv licv
      exact ⟨fun _ => SpecGoodChangesets.nil sv licv, fun _ => rfl⟩
  | cons c rest ih =>
      intro sv licv
      unfold validate_changesets
      by_cases hg : (if is_flx = true then c.remote_version ≥ sv else c.remote_version > sv)
      · rw [if_neg (not_not_intro hg)]
        by_cases hb : (c.last_integrated_local_version ≥ licv ∧
            c.last_integrated_local_version ≤ bound)
        · rw [if_neg (not_not_intro hb)]
          by_cases ho : (c.origin_file_ident > 0 ∧ c.origin_file_ident ≠ ident)
          · rw [if_neg (not_not_intro ho), ih]
            constructor
            · intro hrest
              exact SpecGoodChangesets.cons sv licv c rest hg hb.1 hb.2 ho.1 ho.2 hrest
            · intro hs
              cases hs with
              | cons _ _ _ _ hsv hl1 hl2 hi1 hi2 hrest => exact hrest
          · rw [if_pos ho]
            refine iff_of_false (by simp) ?_
            intro hs
            cases hs with
            | cons _ _ _ _ hsv hl1 hl2 hi1 hi2 hrest => exact ho ⟨hi1, hi2⟩
        · rw [if_pos hb]
          refine iff_of_false (by simp) ?_
          intro hs
          cases hs with
          | cons _ _ _ _ hsv hl1 hl2 hi1 hi2 hrest => exact hb ⟨hl1, hl2⟩
      · rw [if_pos hg]
        refine iff_of_false (by simp) ?_
        intro hs
        cases hs with
        | cons _ _ _ _ hsv hl1 hl2 hi1 hi2 hrest => exact hg hsv

/-- The guard loop only ever reports one of the three per-changeset
protocol errors. -/
theorem validate_changesets_some_mem (is_flx : Bool) (ident bound : Nat)
    (cs : List RemoteChangeset) : ∀ (sv licv : Nat) (e : ClientError),
    validate_changesets is_flx ident bound sv licv cs = some e →
      e = ClientError.bad_server_version ∨ e = ClientError.bad_client_version ∨
        e = ClientError.bad_origin_file_ident := by
  induction cs with
  | nil =>
      intro sv licv e h
      simp [validate_changesets] at h
  | cons c rest ih =>
      intro sv licv e h
      unfold validate_changesets at h
      by_cases hg : (if is_flx = true then c.remote_version ≥ sv else c.remote_version > sv)
      · rw [if_neg (not_not_intro hg)] at h
        by_cases hb : (c.last_integrated_local_version ≥ licv ∧
            c.last_integrated_local_version ≤ bound)
        · rw [if_neg (not_not_intro hb)] at h
          by_cases ho : (c.origin_file_ident > 0 ∧ c.origin_file_ident ≠ ident)
          · rw [if_neg (not_not_intro ho)] at h
            exact ih _ _ _ h
          · rw [if_pos ho] at h
            injection h with h
            exact Or.inr (Or.inr h.symm)
        · rw [if_pos hb] at h
          injection h with h
          exact Or.inr (Or.inl h.symm)
      · rw [if_pos hg] at h
        injection h with h
        exact Or.inl h.symm

/-- C2. For an `Active` session with no pending client error that has
sent IDENT and received neither ERROR nor UNBOUND, and a DOWNLOAD whose
progress passes `check_received_sync_progress`: the message's changesets
are forwarded for integration exactly when they satisfy the claim's
per-changeset conditions; the first violated guard closes the connection
with its protocol error and forwards nothing; and the only errors so
raised are `bad_server_version`, `bad_client_version` and
`bad_origin_file_ident` (lines 2351-2388). -/
theorem c2_download_message_guards (s : Session) (progress : SyncProgress)
    (cs : List RemoteChangeset)
    (hact : s.state = SessionLifecycle.Active)
    (hce : s.client_error = false)
    (hident : s.ident_message_sent = true)
    (herr : s.error_message_received = false)
    (hunb : s.unbound_message_received = false)
    (hprog : s.check_received_sync_progress progress = true) :
    (s.receive_download_message progress cs = (s, DownloadAction.accepted cs) ↔
        SpecGoodChangesets s.is_flx_sync_session s.client_file_ident
          progress.download.last_integrated_client_version
          s.progress.download.server_version
          s.progress.download.last_integrated_client_version cs) ∧
      (∀ e, validate_changesets s.is_flx_sync_session s.client_file_ident
          progress.download.last_integrated_client_version
          s.progress.download.server_version
          s.progress.download.last_integrated_client_version cs = some e →
        s.receive_download_message progress cs = (s, DownloadAction.closed e)) ∧
      (∀ e, s.receive_download_message progress cs = (s, DownloadAction.closed e) →
        e = ClientError.bad_server_version ∨ e = ClientError.bad_client_version ∨
          e = ClientError.bad_origin_file_ident) := by
  rcases hv : validate_changesets s.is_flx_sync_session s.client_file_ident
      progress.download.last_integrated_client_version
      s.progress.download.server_version
      s.progress.download.last_integrated_client_version cs with _ | e
  · have hred : s.receive_download_message progress cs = (s, DownloadAction.accepted cs) := by
      simp [Session.receive_download_message, hact, hce, hident, herr, hunb, hprog, hv]
    refine ⟨?_, ?_, ?_⟩
    · rw [hred]
      exact iff_of_true rfl
        ((validate_changesets_none_iff s.is_flx_sync_session s.client_file_ident
          progress.download.last_integrated_client_version cs _ _).mp hv)
    · intro e he
      simp at he
    · intro e he
      rw [hred] at he
      simp at he
  · have hred : s.receive_download_message progress cs = (s, DownloadAction.closed e) := by
      simp [Session.receive_download_message, hact, hce, hident, herr, hunb, hprog, hv]
    refine ⟨?_, ?_, ?_⟩
    · rw [hred]
      refine iff_of_false (by simp) ?_
      intro hs
      have hnone := (validate_changesets_none_iff s.is_flx_sync_session s.client_file_ident
        progress.download.last_integrated_client_version cs _ _).mpr hs
      rw [hv] at hnone
      exact absurd hnone (by simp)
    · intro e' he
      injection he with he
      subst he
      exact hred
    · intro e' he
      rw [hred] at he
      injection he with he1 he2
      injection he2 with he2
      subst he2
      exact validate_changesets_some_mem s.is_flx_sync_session s.client_file_ident
        progress.download.last_integrated_client_version cs _ _ _ hv

/-- C2 witness: `sampleActiveSession` accepts the well-formed
`sampleChangeset` under `sampleDownloadProgress`. -/
theorem c2_download_message_guards_witness :
    sampleActiveSession.receive_download_message sampleDownloadProgress [sampleChangeset]
      = (sampleActiveSession, DownloadAction.accepted [sampleChangeset]) := by
  have h := (c2_download_message_guards sampleActiveSession sampleDownloadProgress
    [sampleChangeset] rfl rfl rfl rfl rfl (by decide)).1
  refine h.mpr ?_
  refine SpecGoodChangesets.cons _ _ _ _ (by decide) (by decide) (by decide) (by decide)
    (by decide) (SpecGoodChangesets.nil _ _)

end RealmSync
